import Mathlib

/-!
Shallow embedding of the DressUp monitoring scripts
(`monitoring/validate-monitoring.py`, `monitoring/create-log-metrics.py`,
`monitoring/create-budget-alerts.py`, `monitoring/create-dashboard.py`).

Cloud API calls are modelled by explicit environments that record the
response (or the raised error text) of each call.  Python exceptions are
modelled with `Except`: a function that can propagate an uncaught Python
exception returns `Except PyErr _`.  Free-text detail strings follow the
source but abbreviate Python repr-style interpolation where the exact text
is irrelevant to control flow.
-/

deriving instance DecidableEq for Except

namespace DressUp

/-- Result of a cloud API call: either the returned value or the text of the
exception raised by the client library. -/
inductive ApiResult (α : Type) where
  | ok (val : α)
  | err (msg : String)
deriving DecidableEq

/-- Python exceptions that can escape the functions modelled here. -/
inductive PyErr where
  | keyError (key : String)
  | nameError (nm : String)
deriving DecidableEq

/-- `charsSub pat hay`: `pat` occurs as a contiguous run inside `hay`
(Python `pat in hay` on strings, over character lists). -/
def charsSub (pat : List Char) : List Char → Bool
  | [] => pat.isEmpty
  | c :: rest => pat.isPrefixOf (c :: rest) || charsSub pat rest

/-- Python `pat in hay` for strings. -/
def strContains (hay pat : String) : Bool :=
  charsSub pat.toList hay.toList

/-- Python `s.lower()` (the sources only match the ASCII phrase
"already exists"). -/
def strLower (s : String) : String :=
  ⟨s.data.map Char.toLower⟩

/-- Split at the first occurrence of `sep`: the part before it and the part
after it, or `none` when `sep` does not occur. -/
def breakOn (sep : List Char) : List Char → Option (List Char × List Char)
  | [] => if sep.isEmpty then some ([], []) else none
  | c :: rest =>
      if sep.isPrefixOf (c :: rest) then some ([], (c :: rest).drop sep.length)
      else
        match breakOn sep rest with
        | some (pre, post) => some (c :: pre, post)
        | none => none

/-- Python `s.split(sep)[0]`: up to the first occurrence of `sep` (the whole
string when `sep` does not occur). -/
def pySplitHead (s sep : String) : String :=
  match breakOn sep.data s.data with
  | some (pre, _) => ⟨pre⟩
  | none => s

/-- Python `s.split(sep)[1]`: between the first and the second occurrence of
`sep` (empty when `sep` does not occur, a case the sources guard against). -/
def pySplitSecond (s sep : String) : String :=
  match breakOn sep.data s.data with
  | some (_, post) =>
      (match breakOn sep.data post with
       | some (pre2, _) => ⟨pre2⟩
       | none => ⟨post⟩)
  | none => ""

/-- Remove every occurrence of `pat`, scanning left to right (fuel-driven so
the recursion is structural; the initial fuel `l.length` suffices since each
step consumes at least one character for a non-empty `pat`). -/
def replaceAllAux (pat : List Char) : Nat → List Char → List Char
  | _, [] => []
  | 0, l => l
  | n + 1, c :: rest =>
      if pat.isPrefixOf (c :: rest) && ! pat.isEmpty then
        replaceAllAux pat n ((c :: rest).drop pat.length)
      else
        c :: replaceAllAux pat n rest

/-- Python `s.replace(pat, chr(0) * 0)`, i.e. deletion of every occurrence
of a non-empty `pat`. -/
def pyReplace (s pat : String) : String :=
  ⟨replaceAllAux pat.data s.data.length s.data⟩

/-- Python `s.startswith(pre)`. -/
def pyStartsWith (s pre : String) : Bool :=
  pre.data.isPrefixOf s.data

/-! ## validate-monitoring.py: data model of the result accumulator -/

/-- One recorded test: the dict appended by `log_test_result` (lines 42-46). -/
structure TestEntry where
  name : String
  passed : Bool
  details : String
deriving DecidableEq

/-- One category bucket of `self.results` (lines 33-36). -/
structure CatResults where
  passed : Nat
  failed : Nat
  tests : List TestEntry
deriving DecidableEq

/-- The `'overall'` bucket (line 37): note it has no `tests` list. -/
structure OverallCounters where
  passed : Nat
  failed : Nat
deriving DecidableEq

/-- The keys of `self.results`. -/
inductive Category where
  | structured_logging
  | log_metrics
  | dashboard
  | budgets
  | overall
deriving DecidableEq

/-- `self.results` as initialised in `MonitoringValidator.__init__` plus the
four named category buckets. -/
structure Results where
  structured_logging : CatResults
  log_metrics : CatResults
  dashboard : CatResults
  budgets : CatResults
  overall : OverallCounters
deriving DecidableEq

/-- Initial accumulator (lines 32-38). -/
def initial_results : Results :=
  { structured_logging := ⟨0, 0, []⟩
    log_metrics := ⟨0, 0, []⟩
    dashboard := ⟨0, 0, []⟩
    budgets := ⟨0, 0, []⟩
    overall := ⟨0, 0⟩ }

/-- `self.results[category]['tests']` lookup: the `'overall'` dict has no
`'tests'` key, so the lookup that `log_test_result` starts with yields
nothing for it. -/
def getCat? (st : Results) : Category → Option CatResults
  | .structured_logging => some st.structured_logging
  | .log_metrics => some st.log_metrics
  | .dashboard => some st.dashboard
  | .budgets => some st.budgets
  | .overall => none

/-- Write back one category bucket. -/
def setCat (st : Results) (c : Category) (r : CatResults) : Results :=
  match c with
  | .structured_logging => { st with structured_logging := r }
  | .log_metrics => { st with log_metrics := r }
  | .dashboard => { st with dashboard := r }
  | .budgets => { st with budgets := r }
  | .overall => st

/-- `self.results[category]['passed']` (present for all five keys). -/
def catPassedCount (st : Results) : Category → Nat
  | .structured_logging => st.structured_logging.passed
  | .log_metrics => st.log_metrics.passed
  | .dashboard => st.dashboard.passed
  | .budgets => st.budgets.passed
  | .overall => st.overall.passed

/-- The recorded test list of a category (empty for `'overall'`, which has
none). -/
def catTests (st : Results) (c : Category) : List TestEntry :=
  match getCat? st c with
  | some r => r.tests
  | none => []

/-- `MonitoringValidator.log_test_result` (lines 40-57).  It first appends
to `self.results[category]['tests']`; for `category = 'overall'` that dict
access raises `KeyError: 'tests'`.  Otherwise it appends the entry and
increments the category's and the overall pass/fail counters. -/
def log_test_result (st : Results) (category : Category) (test_name : String)
    (passed : Bool) (details : String) : Except PyErr Results :=
  match getCat? st category with
  | none => Except.error (PyErr.keyError "tests")
  | some r =>
      let r2 : CatResults := { r with tests := r.tests ++ [⟨test_name, passed, details⟩] }
      if passed then
        Except.ok { (setCat st category { r2 with passed := r2.passed + 1 }) with
                    overall := { st.overall with passed := st.overall.passed + 1 } }
      else
        Except.ok { (setCat st category { r2 with failed := r2.failed + 1 }) with
                    overall := { st.overall with failed := st.overall.failed + 1 } }

/-! ## validate-monitoring.py: environment (cloud responses) -/

/-- One log entry as inspected by `test_structured_logging`: `none` when the
payload carries no usable `structuredData` mapping, otherwise the list of
field names present in that mapping. -/
structure LogEntry where
  structuredData : Option (List String)
deriving DecidableEq

/-- A dashboard tile as inspected by `test_dashboard`: the dataset filter
strings of its `xy_chart` (if any) and the filter string of its `scorecard`
(if any). -/
structure DashTile where
  xyChartFilters : Option (List String)
  scorecardFilter : Option String
deriving DecidableEq

/-- A dashboard as returned by `list_dashboards`. -/
structure DashboardInfo where
  display_name : String
  mosaicTiles : Option (List DashTile)
deriving DecidableEq

/-- Project billing information returned by `get_project_billing_info`. -/
structure BillingInfo where
  billing_enabled : Bool
  billing_account_name : String
deriving DecidableEq

/-- A budget as returned by `list_budgets`. -/
structure BudgetInfo where
  display_name : String
  threshold_rules_count : Nat
deriving DecidableEq

/-- All external observations one validator run can make. -/
structure ValidatorEnv where
  project_id : String
  /-- `logging_client.list_entries` result. -/
  listEntries : ApiResult (List LogEntry)
  /-- contents of `log-metrics.yaml`: `none` when the file is absent
  (`FileNotFoundError`), otherwise the catalog metric names. -/
  logMetricsYaml : Option (List String)
  /-- `list_metric_descriptors` result: the `metric.type` strings. -/
  listDescriptors : ApiResult (List String)
  /-- number of time series returned by `list_time_series`. -/
  listTimeSeriesCount : ApiResult Nat
  /-- `list_dashboards` result. -/
  listDashboards : ApiResult (List DashboardInfo)
  /-- `get_project_billing_info` result. -/
  billingInfo : ApiResult BillingInfo
  /-- `list_budgets` result. -/
  listBudgets : ApiResult (List BudgetInfo)

/-- Marker for user-defined log metrics in a `metric.type` string. -/
def userMetricMarker : String := "logging.googleapis.com/user/"

/-- Required payload fields checked by `test_structured_logging` (line 90). -/
def required_fields : List String := ["eventType", "timestamp", "functionName"]

/-- Fallback metric list used when `log-metrics.yaml` is absent
(lines 143-147). -/
def default_expected_metrics : List String :=
  ["session_creation_rate", "generation_requests_total", "generation_success_rate",
   "generation_latency_ms", "vertex_ai_latency_ms", "feedback_ratings", "error_rate"]

/-- `MonitoringValidator.test_structured_logging` (lines 59-130).  The whole
body is wrapped in try/except, so it never propagates an exception. -/
def test_structured_logging (env : ValidatorEnv) (st : Results) : Except PyErr Results :=
  match env.listEntries with
  | .err e =>
      log_test_result st .structured_logging "Structured logging access" false
        ("Error accessing logs: " ++ e)
  | .ok entries =>
      match entries with
      | [] =>
          log_test_result st .structured_logging "Structured logs present" false
            "No structured logs found. Deploy Cloud Functions first."
      | sample :: rest => do
          let st ← log_test_result st .structured_logging "Structured logs present" true
            ("Found " ++ toString (sample :: rest).length ++ " structured log entries")
          match sample.structuredData with
          | some fields =>
              -- missing_fields = required_fields not present in the payload
              if (required_fields.filter (fun f => ! fields.contains f)).isEmpty then
                log_test_result st .structured_logging "Log structure validation" true
                  "All required fields present"
              else
                log_test_result st .structured_logging "Log structure validation" false
                  "Missing fields"
          | none =>
              log_test_result st .structured_logging "Log structure validation" false
                "No structured data found in log payload"

/-- `MonitoringValidator.test_log_metrics` (lines 132-214).  Only the two
API calls sit inside try/except blocks; when `list_metric_descriptors`
raises, the except branch records a failed test but the local
`found_metrics` was never assigned, so the later `if found_metrics:`
(line 182) raises `NameError` (UnboundLocalError), which propagates. -/
def test_log_metrics (env : ValidatorEnv) (st : Results) : Except PyErr Results :=
  let expected_metrics :=
    match env.logMetricsYaml with
    | some names => names
    | none => default_expected_metrics
  match env.listDescriptors with
  | .err e => do
      let _ ← log_test_result st .log_metrics "Log metrics access" false
        ("Error accessing metrics: " ++ e)
      Except.error (PyErr.nameError "found_metrics")
  | .ok descriptors => do
      let user_metrics : List String :=
        (descriptors.filter (fun t => pyStartsWith t userMetricMarker)).map
          (fun t => pyReplace t userMetricMarker)
      let found_metrics : List String :=
        expected_metrics.filter (fun m => user_metrics.contains m)
      let missing_metrics : List String :=
        expected_metrics.filter (fun m => ! user_metrics.contains m)
      let st ← log_test_result st .log_metrics "Log metrics existence"
        (decide (0 < found_metrics.length))
        ("Found: " ++ toString found_metrics.length ++ ", Missing: " ++
          toString missing_metrics.length)
      if found_metrics.isEmpty then
        return st
      else
        match env.listTimeSeriesCount with
        | .ok n =>
            log_test_result st .log_metrics "Metric data availability" (decide (0 < n))
              ("Found " ++ toString n ++ " time series")
        | .err e =>
            log_test_result st .log_metrics "Metric data query" false
              ("Error querying metric data: " ++ e)

/-- `MonitoringValidator.test_dashboard` (lines 216-295).  The whole body is
wrapped in try/except, so it never propagates an exception. -/
def test_dashboard (env : ValidatorEnv) (st : Results) : Except PyErr Results :=
  match env.listDashboards with
  | .err e =>
      log_test_result st .dashboard "Dashboard access" false
        ("Error accessing dashboard: " ++ e)
  | .ok dashboards => do
      let dressup_dashboards := dashboards.filter
        (fun d => strContains d.display_name "DressUp AI")
      let st ← log_test_result st .dashboard "Dashboard existence"
        (decide (0 < dressup_dashboards.length))
        ("Found " ++ toString dressup_dashboards.length ++ " DressUp AI dashboard(s)")
      match dressup_dashboards with
      | [] => return st
      | d :: _ =>
          match d.mosaicTiles with
          | none =>
              log_test_result st .dashboard "Dashboard layout validation" false
                "Dashboard has no mosaic layout"
          | some tiles => do
              let widget_types := tiles.foldl
                (fun acc t =>
                  (acc ++ (if t.xyChartFilters.isSome then ["xy_chart"] else [])) ++
                    (if t.scorecardFilter.isSome then ["scorecard"] else [])) []
              let st ← log_test_result st .dashboard "Dashboard widget configuration"
                (decide (0 < widget_types.length))
                ("Found " ++ toString widget_types.length ++ " widgets")
              let metric_references := tiles.foldl
                (fun acc t =>
                  let acc := acc ++ ((t.xyChartFilters.getD []).filter
                    (fun f => strContains f userMetricMarker))
                  match t.scorecardFilter with
                  | some f => if strContains f userMetricMarker then acc ++ [f] else acc
                  | none => acc) []
              log_test_result st .dashboard "Dashboard metric references"
                (decide (0 < metric_references.length))
                ("Found " ++ toString metric_references.length ++ " metric references")

/-- `MonitoringValidator.test_budget_alerts` (lines 297-370).  The whole
body is wrapped in try/except, so it never propagates an exception.  The
second component counts how many `list_budgets` calls the run issued
(instrumentation; the source makes the call at line 331 only after the
billing-enabled check passed). -/
def test_budget_alerts (env : ValidatorEnv) (st : Results) :
    Except PyErr (Results × Nat) := do
  match env.billingInfo with
  | .err e => do
      let st ← log_test_result st .budgets "Billing API access" false
        ("Error accessing billing API: " ++ e)
      return (st, 0)
  | .ok project_billing =>
      if ! project_billing.billing_enabled then do
        let st ← log_test_result st .budgets "Billing enabled" false
          "Billing is not enabled for this project"
        return (st, 0)
      else do
        let st ← log_test_result st .budgets "Billing enabled" true
          "Project has billing enabled"
        match env.listBudgets with
        | .err e => do
            let st ← log_test_result st .budgets "Budget alerts access" false
              ("Error accessing budgets: " ++ e)
            return (st, 1)
        | .ok budget_list => do
            let dressup_budgets := budget_list.filter
              (fun b => strContains b.display_name "DressUp AI")
            let st ← log_test_result st .budgets "Budget alerts existence"
              (decide (0 < dressup_budgets.length))
              ("Found " ++ toString dressup_budgets.length ++ " DressUp AI budget(s)")
            let st ← dressup_budgets.foldlM
              (fun s b =>
                log_test_result s .budgets
                  ("Budget threshold configuration - " ++ b.display_name)
                  (decide (4 ≤ b.threshold_rules_count))
                  ("Has " ++ toString b.threshold_rules_count ++ " threshold rules")) st
            return (st, 1)

/-- The four pipeline components checked by `test_end_to_end_flow`
(lines 379-384). -/
def pipeline_components : List (String × Category) :=
  [("Cloud Functions", .structured_logging),
   ("Log-based Metrics", .log_metrics),
   ("Monitoring Dashboard", .dashboard),
   ("Budget Alerts", .budgets)]

/-- Components whose category has at least one passed test (lines 386-389). -/
def working_components (st : Results) : List String :=
  (pipeline_components.filter (fun p => decide (0 < catPassedCount st p.2))).map
    (fun p => p.1)

/-- `MonitoringValidator.test_end_to_end_flow` (lines 372-396): records the
completeness pseudo-test under the `'overall'` category. -/
def test_end_to_end_flow (st : Results) : Except PyErr Results :=
  log_test_result st .overall "Monitoring pipeline completeness"
    (decide (3 ≤ (working_components st).length))
    ("Working components: " ++ String.intercalate ", " (working_components st))

/-! ## validate-monitoring.py: report and process exit -/

/-- One entry of `report['categories']` (lines 419-425). -/
structure CategoryReport where
  status : String
  success_rate : ℚ
  passed : Nat
  failed : Nat
  tests : List TestEntry
deriving DecidableEq

/-- The validation report (lines 404-413); the wall-clock timestamp is an
external effect and is not modelled. -/
structure Report where
  project_id : String
  overall_status : String
  success_rate : ℚ
  total_tests : Nat
  passed_tests : Nat
  failed_tests : Nat
  categories : List (String × CategoryReport)
deriving DecidableEq

/-- Per-category block of `generate_validation_report` (lines 415-425). -/
def mkCategoryReport (c : CatResults) : CategoryReport :=
  let category_total := c.passed + c.failed
  let category_success : ℚ :=
    if 0 < category_total then (c.passed : ℚ) / (category_total : ℚ) * 100 else 0
  { status := if 75 ≤ category_success then "PASS" else "FAIL"
    success_rate := category_success
    passed := c.passed
    failed := c.failed
    tests := c.tests }

/-- `MonitoringValidator.generate_validation_report` (lines 398-427). -/
def generate_validation_report (project_id : String) (st : Results) : Report :=
  let total_tests := st.overall.passed + st.overall.failed
  let success_rate : ℚ :=
    if 0 < total_tests then (st.overall.passed : ℚ) / (total_tests : ℚ) * 100 else 0
  { project_id := project_id
    overall_status := if 75 ≤ success_rate then "PASS" else "FAIL"
    success_rate := success_rate
    total_tests := total_tests
    passed_tests := st.overall.passed
    failed_tests := st.overall.failed
    categories :=
      [("structured_logging", mkCategoryReport st.structured_logging),
       ("log_metrics", mkCategoryReport st.log_metrics),
       ("dashboard", mkCategoryReport st.dashboard),
       ("budgets", mkCategoryReport st.budgets)] }

/-- `MonitoringValidator.run_validation` (lines 429-443): the five test
steps in source order, then the report. -/
def run_validation (env : ValidatorEnv) : Except PyErr Report := do
  let st ← test_structured_logging env initial_results
  let st ← test_log_metrics env st
  let st ← test_dashboard env st
  let bp ← test_budget_alerts env st
  let st ← test_end_to_end_flow bp.1
  return generate_validation_report env.project_id st

/-- Outcome of one `main` invocation (lines 478-499): either the report was
produced, or an exception reached the outer `except Exception` handler. -/
inductive RunOutcome where
  | report (r : Report)
  | fatal (e : PyErr)
deriving DecidableEq

/-- What `main` observes from `run_validation` (line 480 inside the try). -/
def main_outcome (env : ValidatorEnv) : RunOutcome :=
  match run_validation env with
  | .ok r => RunOutcome.report r
  | .error e => RunOutcome.fatal e

/-- Process exit status chosen by `main` (lines 489-499):
`sys.exit(0 if report['overall_status'] == 'PASS' else 1)` on a completed
run, `sys.exit(1)` on a fatal error (a `KeyboardInterrupt` also exits 1). -/
def exit_code : RunOutcome → Nat
  | .report r => if r.overall_status = "PASS" then 0 else 1
  | .fatal _ => 1

/-! ## create-log-metrics.py -/

/-- One catalog entry of `log-metrics.yaml` with the keys the script always
reads (`name`, `description`, `filter`, lines 23-27); the optional extractor
and descriptor keys only shape the submitted request object and are not
modelled. -/
structure MetricEntry where
  name : String
  description : String
  filter : String
deriving DecidableEq

/-- Result of one cloud create/update call. -/
inductive ApiOutcome where
  | success
  | failure (msg : String)
deriving DecidableEq

/-- Cloud responses for the log-metric provisioner, keyed by metric name. -/
structure MetricsEnv where
  createResult : String → ApiOutcome
  updateResult : String → ApiOutcome

/-- API calls issued by the provisioner. -/
inductive ApiCall where
  | createMetric (name : String)
  | updateMetric (name : String)
deriving DecidableEq

/-- The five per-metric messages `create_log_metric` can print
(lines 69, 73, 78, 81, 83). -/
inductive MetricEvent where
  | created (name : String)
  | alreadyExists (name : String)
  | updated (name : String)
  | updateFailed (name : String) (msg : String)
  | createFailed (name : String) (msg : String)
deriving DecidableEq

/-- `create_log_metric` (lines 19-83): returns the API calls it issued and
the messages it printed.  Note that every exception raised by the two API
calls is caught inside this function (lines 71-83): a create failure that
is not an "already exists" conflict, and a failed fallback update, are
printed and then the function returns normally (`None` in Python). -/
def create_log_metric (env : MetricsEnv) (m : MetricEntry) :
    List ApiCall × List MetricEvent :=
  match env.createResult m.name with
  | .success => ([ApiCall.createMetric m.name], [MetricEvent.created m.name])
  | .failure e =>
      if strContains (strLower e) "already exists" then
        match env.updateResult m.name with
        | .success =>
            ([ApiCall.createMetric m.name, ApiCall.updateMetric m.name],
             [MetricEvent.alreadyExists m.name, MetricEvent.updated m.name])
        | .failure update_e =>
            ([ApiCall.createMetric m.name, ApiCall.updateMetric m.name],
             [MetricEvent.alreadyExists m.name, MetricEvent.updateFailed m.name update_e])
      else
        ([ApiCall.createMetric m.name], [MetricEvent.createFailed m.name e])

/-- What one run of `create-log-metrics.py main` (lines 120-149) produces:
the call trace, the printed per-metric events, the two summary counters and
the final "Created metrics for monitoring" listing of (name, description)
pairs. -/
structure ProvisionSummary where
  calls : List ApiCall
  events : List MetricEvent
  successful_metrics : Nat
  failed_metrics : Nat
  listing : List (String × String)
deriving DecidableEq

/-- The metric loop and summary of `main` (lines 121-149).  The
`except` branch at lines 132-134 can only fire when `create_log_metric`
itself raises, which for a well-formed catalog entry (all required keys
present, as enforced by `MetricEntry`) never happens because that function
catches all API errors internally; so `successful_metrics` is incremented
for every entry. -/
def create_metrics_main (env : MetricsEnv) (metrics_config : List MetricEntry) :
    ProvisionSummary :=
  let init : ProvisionSummary :=
    { calls := [], events := [], successful_metrics := 0, failed_metrics := 0,
      listing := [] }
  let base := metrics_config.foldl
    (fun acc m =>
      let r := create_log_metric env m
      { acc with
        calls := acc.calls ++ r.1
        events := acc.events ++ r.2
        successful_metrics := acc.successful_metrics + 1 })
    init
  { base with listing := metrics_config.map (fun m => (m.name, m.description)) }

/-! ## create-budget-alerts.py -/

/-- `ThresholdRule.Basis`. -/
inductive Basis where
  | CURRENT_SPEND
  | FORECASTED_SPEND
deriving DecidableEq

/-- One budget threshold rule. -/
structure ThresholdRule where
  threshold_percent : ℚ
  spend_basis : Basis
deriving DecidableEq

/-- `money_pb2.Money`. -/
structure Money where
  currency_code : String
  units : Int
deriving DecidableEq

/-- `billing_budgets_v1.BudgetAmount`. -/
structure BudgetAmount where
  specified_amount : Money
deriving DecidableEq

/-- `billing_budgets_v1.Filter`. -/
structure BudgetScopeFilter where
  projects : List String
  services : List String
deriving DecidableEq

/-- `billing_budgets_v1.AllUpdatesRule`. -/
structure AllUpdatesRule where
  monitoring_notification_channels : List String
  disable_default_iam_recipients : Bool
deriving DecidableEq

/-- The budget object submitted to `client.create_budget`. -/
structure Budget where
  display_name : String
  budget_filter : BudgetScopeFilter
  amount : BudgetAmount
  threshold_rules : List ThresholdRule
  all_updates_rule : AllUpdatesRule
deriving DecidableEq

/-- Default service allow-list (lines 42-48). -/
def default_services : List String :=
  ["services/aiplatform.googleapis.com",
   "services/cloudfunctions.googleapis.com",
   "services/storage.googleapis.com",
   "services/logging.googleapis.com",
   "services/monitoring.googleapis.com"]

/-- `create_budget` (lines 29-110): the budget object it builds and submits.
The `billing_account` argument only forms the request parent string and the
submission result is returned unchanged, so the constructed `Budget` is the
whole observable behaviour.  `services=None` and
`notification_channels=None` are the Python defaults. -/
def create_budget (billing_account project_id : String) (budget_amount : Int)
    (display_name : String) (services : Option (List String))
    (notification_channels : Option (List String)) : Budget :=
  let services := match services with
    | none => default_services
    | some s => s
  let budget_filter : BudgetScopeFilter :=
    { projects := ["projects/" ++ project_id], services := services }
  let amount : BudgetAmount :=
    { specified_amount := { currency_code := "USD", units := budget_amount } }
  let threshold_rules : List ThresholdRule :=
    [⟨0.5, Basis.CURRENT_SPEND⟩,
     ⟨0.75, Basis.CURRENT_SPEND⟩,
     ⟨0.9, Basis.CURRENT_SPEND⟩,
     ⟨1.0, Basis.CURRENT_SPEND⟩,
     ⟨1.1, Basis.CURRENT_SPEND⟩]
  let all_updates_rule : AllUpdatesRule :=
    { monitoring_notification_channels := notification_channels.getD []
      disable_default_iam_recipients := false }
  { display_name := display_name
    budget_filter := budget_filter
    amount := amount
    threshold_rules := threshold_rules
    all_updates_rule := all_updates_rule }

/-! ## create-dashboard.py -/

/-- The dashboard layout file: the tiles of `mosaicLayout` (display name and
filters are irrelevant to reference validation).  A tile is modelled by the
filter strings of its `xyChart` datasets (if the widget has an `xyChart`)
and its `scorecard` filter string (if it has a scorecard); reusing the
validator's `DashTile` shape. -/
structure DashboardConfig where
  tiles : List DashTile
deriving DecidableEq

/-- The metrics catalog file as read by the dashboard provisioner. -/
structure MetricsCatalog where
  metrics : List MetricEntry
deriving DecidableEq

/-- Python `s.strip(chr(34))`: remove double quotes from both ends. -/
def stripQuotes (s : String) : String :=
  ⟨((s.data.dropWhile (· == '"')).reverse.dropWhile (· == '"')).reverse⟩

/-- The metric-name extraction applied to one filter string (lines 64-69 and
77-81): take the text after `metric.type=`, cut at the first space, strip
quotes, and keep the tail after the user-metric marker. -/
def extract_metric_name (filter_str : String) : Option String :=
  if strContains filter_str "metric.type=" then
    let metric_part :=
      stripQuotes (pySplitHead (pySplitSecond filter_str "metric.type=") " ")
    if pyStartsWith metric_part userMetricMarker then
      some (pyReplace metric_part userMetricMarker)
    else
      none
  else
    none

/-- Python `set.add`: insertion-order model of `referenced_metrics.add`. -/
def addRef (refs : List String) (m : String) : List String :=
  if refs.contains m then refs else refs ++ [m]

/-- Process one dataset/scorecard filter string: add the extracted metric
name (if any) to the reference set. -/
def addFilterRef (r : List String) (f : String) : List String :=
  match extract_metric_name f with
  | some m => addRef r m
  | none => r

/-- Collect the references of one tile (xy-chart datasets first, then the
scorecard, as in lines 52-81). -/
def addTileRefs (refs : List String) (t : DashTile) : List String :=
  let refs := (t.xyChartFilters.getD []).foldl addFilterRef refs
  match t.scorecardFilter with
  | some f => addFilterRef refs f
  | none => refs

/-- The `referenced_metrics` set of `validate_metrics_references`
(lines 49-81), in insertion order. -/
def referenced_metrics (d : DashboardConfig) : List String :=
  d.tiles.foldl addTileRefs []

/-- The names defined by the catalog (line 84). -/
def defined_metrics (c : MetricsCatalog) : List String :=
  c.metrics.map (fun m => m.name)

/-- The issue message appended at line 88. -/
def issueText (m : String) : String :=
  "Dashboard references undefined metric: " ++ m

/-- `validate_metrics_references` (lines 44-90). -/
def validate_metrics_references (d : DashboardConfig) (c : MetricsCatalog) :
    List String :=
  (referenced_metrics d).foldl
    (fun issues m =>
      if (defined_metrics c).contains m then issues else issues ++ [issueText m]) []

/-! ## Material for the accumulator invariant -/

/-- One `log_test_result` call. -/
structure TestCall where
  category : Category
  test_name : String
  passed : Bool
  details : String
deriving DecidableEq

/-- A sequence of `log_test_result` calls applied in order. -/
def runCalls : List TestCall → Results → Except PyErr Results
  | [], st => Except.ok st
  | c :: cs, st => do
      let st2 ← log_test_result st c.category c.test_name c.passed c.details
      runCalls cs st2

/-- Sum of the four categories' passed counters. -/
def sumCatPassed (st : Results) : Nat :=
  st.structured_logging.passed + st.log_metrics.passed +
    st.dashboard.passed + st.budgets.passed

/-- Sum of the four categories' failed counters. -/
def sumCatFailed (st : Results) : Nat :=
  st.structured_logging.failed + st.log_metrics.failed +
    st.dashboard.failed + st.budgets.failed

/-- The accumulator invariant: overall counters are the category sums, and
each category's counters add up to its recorded test count. -/
def balanced (st : Results) : Prop :=
  st.overall.passed = sumCatPassed st ∧
  st.overall.failed = sumCatFailed st ∧
  st.structured_logging.passed + st.structured_logging.failed =
    st.structured_logging.tests.length ∧
  st.log_metrics.passed + st.log_metrics.failed = st.log_metrics.tests.length ∧
  st.dashboard.passed + st.dashboard.failed = st.dashboard.tests.length ∧
  st.budgets.passed + st.budgets.failed = st.budgets.tests.length

/-! ## Concrete inputs used by witnesses and counterexamples -/

/-- A benign environment: every call succeeds but finds nothing deployed. -/
def envC1 : ValidatorEnv :=
  { project_id := "demo-project"
    listEntries := ApiResult.ok []
    logMetricsYaml := none
    listDescriptors := ApiResult.ok []
    listTimeSeriesCount := ApiResult.ok 0
    listDashboards := ApiResult.ok []
    billingInfo := ApiResult.ok ⟨true, "billingAccounts/000000"⟩
    listBudgets := ApiResult.ok [] }

/-- Like `envC1` but the metric-descriptor listing call raises. -/
def envC6 : ValidatorEnv :=
  { envC1 with listDescriptors := ApiResult.err "503 Service Unavailable" }

/-- Like `envC1` but the project has billing disabled. -/
def envC9 : ValidatorEnv :=
  { envC1 with billingInfo := ApiResult.ok ⟨false, "billingAccounts/000000"⟩ }

/-- The state from the claim's example: three categories with
passed=1, failed=0 and one with passed=0, failed=2. -/
def exampleStateC2 : Results :=
  { structured_logging := ⟨1, 0, [⟨"Structured logs present", true, ""⟩]⟩
    log_metrics := ⟨1, 0, [⟨"Log metrics existence", true, ""⟩]⟩
    dashboard := ⟨1, 0, [⟨"Dashboard existence", true, ""⟩]⟩
    budgets := ⟨0, 2, [⟨"Billing enabled", false, ""⟩, ⟨"Budget alerts existence", false, ""⟩]⟩
    overall := ⟨3, 2⟩ }

/-- A one-entry catalog. -/
def catalogC3 : List MetricEntry :=
  [⟨"error_rate", "Rate of errors", "severity>=ERROR"⟩]

/-- Creation fails with an error that is not an "already exists" conflict. -/
def envC3 : MetricsEnv :=
  { createResult := fun _ => ApiOutcome.failure "403 permission denied"
    updateResult := fun _ => ApiOutcome.success }

/-- Creation reports an existing metric and the fallback update fails too. -/
def envC3b : MetricsEnv :=
  { createResult := fun _ => ApiOutcome.failure "Log metric Already Exists"
    updateResult := fun _ => ApiOutcome.failure "500 backend error" }

/-- Catalog entry A of the two-entry scenario. -/
def entryA : MetricEntry :=
  ⟨"session_creation_rate", "Sessions created", "eventType=session_created"⟩

/-- Catalog entry B of the two-entry scenario. -/
def entryB : MetricEntry :=
  ⟨"error_rate", "Rate of errors", "severity>=ERROR"⟩

/-- Entry A's create succeeds, entry B's create hits an existing metric and
its update succeeds. -/
def envC4 : MetricsEnv :=
  { createResult := fun n =>
      if n = "error_rate" then ApiOutcome.failure "Log metric already exists"
      else ApiOutcome.success
    updateResult := fun _ => ApiOutcome.success }

/-- A chart filter referencing the undefined metric `ghost_metric`. -/
def ghostFilter : String :=
  "metric.type=\"logging.googleapis.com/user/ghost_metric\" AND resource.type=\"cloud_function\""

/-- A chart filter referencing the defined metric `session_creation_rate`. -/
def sessionFilter : String :=
  "metric.type=\"logging.googleapis.com/user/session_creation_rate\""

/-- Dashboard referencing `ghost_metric` from two different widgets. -/
def dashW : DashboardConfig :=
  { tiles := [⟨some [ghostFilter, sessionFilter], none⟩, ⟨none, some ghostFilter⟩] }

/-- Catalog defining only `session_creation_rate`. -/
def catalogW : MetricsCatalog :=
  { metrics := [⟨"session_creation_rate", "Sessions created", "eventType=session_created"⟩] }

/-- A small call sequence touching three categories. -/
def callsC10 : List TestCall :=
  [⟨Category.structured_logging, "Structured logs present", true, ""⟩,
   ⟨Category.log_metrics, "Log metrics existence", false, ""⟩,
   ⟨Category.budgets, "Billing enabled", false, ""⟩]

/-- An accumulator whose overall counters score exactly 75 percent
(3 of 4 tests passed): its report has overall status PASS. -/
def passStateC1 : Results :=
  { structured_logging := ⟨2, 0, [⟨"Structured logs present", true, ""⟩,
      ⟨"Log structure validation", true, ""⟩]⟩
    log_metrics := ⟨1, 1, [⟨"Log metrics existence", true, ""⟩,
      ⟨"Metric data availability", false, ""⟩]⟩
    dashboard := ⟨0, 0, []⟩
    budgets := ⟨0, 0, []⟩
    overall := ⟨3, 1⟩ }

/-- An accumulator whose overall counters score 25 percent (1 of 4 tests
passed): its report has overall status FAIL. -/
def failStateC1 : Results :=
  { structured_logging := ⟨1, 0, [⟨"Structured logs present", true, ""⟩]⟩
    log_metrics := ⟨0, 1, [⟨"Log metrics existence", false, ""⟩]⟩
    dashboard := ⟨0, 1, [⟨"Dashboard existence", false, ""⟩]⟩
    budgets := ⟨0, 1, [⟨"Billing enabled", false, ""⟩]⟩
    overall := ⟨1, 3⟩ }

/-! ## Helper lemmas -/

/-- Recording under `'overall'` always raises `KeyError: 'tests'`, because
that bucket carries no test list. -/
lemma test_end_to_end_flow_raises (st : Results) :
    test_end_to_end_flow st = Except.error (PyErr.keyError "tests") := rfl

/-- Recording under any of the four real categories succeeds. -/
lemma log_test_result_ok (st : Results) (c : Category) (hc : c ≠ Category.overall)
    (nm : String) (p : Bool) (d : String) :
    ∃ st2, log_test_result st c nm p d = Except.ok st2 := by
  cases c with
  | overall => exact absurd rfl hc
  | structured_logging => cases p <;> exact ⟨_, rfl⟩
  | log_metrics => cases p <;> exact ⟨_, rfl⟩
  | dashboard => cases p <;> exact ⟨_, rfl⟩
  | budgets => cases p <;> exact ⟨_, rfl⟩

/-- Composing successful steps in the `Except` monad. -/
lemma ex_ok_bind {α β : Type} {x : Except PyErr α} {g : α → Except PyErr β}
    (hx : ∃ a, x = Except.ok a) (hg : ∀ a, ∃ b, g a = Except.ok b) :
    ∃ b, (x >>= g) = Except.ok b := by
  obtain ⟨a, ha⟩ := hx
  obtain ⟨b, hb⟩ := hg a
  exact ⟨b, by rw [ha]; simpa [bind, Except.bind] using hb⟩

/-- The structured-logging test group never propagates an exception. -/
lemma test_structured_logging_ok (env : ValidatorEnv) (st : Results) :
    ∃ st2, test_structured_logging env st = Except.ok st2 := by
  unfold test_structured_logging
  cases env.listEntries with
  | err e => exact log_test_result_ok st Category.structured_logging (by decide) _ _ _
  | ok entries =>
    cases entries with
    | nil => exact log_test_result_ok st Category.structured_logging (by decide) _ _ _
    | cons sample rest =>
      refine ex_ok_bind (log_test_result_ok st Category.structured_logging (by decide) _ _ _)
        (fun st1 => ?_)
      obtain ⟨sd⟩ := sample
      cases sd with
      | none => exact log_test_result_ok st1 Category.structured_logging (by decide) _ _ _
      | some fields =>
        dsimp only
        split <;> exact log_test_result_ok st1 Category.structured_logging (by decide) _ _ _

/-- When the descriptor listing succeeds, the log-metrics test group never
propagates an exception. -/
lemma test_log_metrics_ok (env : ValidatorEnv) (st : Results) (ds : List String)
    (h : env.listDescriptors = ApiResult.ok ds) :
    ∃ st2, test_log_metrics env st = Except.ok st2 := by
  unfold test_log_metrics
  rw [h]
  refine ex_ok_bind (log_test_result_ok st Category.log_metrics (by decide) _ _ _)
    (fun st1 => ?_)
  dsimp only
  split
  · exact ⟨st1, rfl⟩
  · cases env.listTimeSeriesCount with
    | ok n => exact log_test_result_ok st1 Category.log_metrics (by decide) _ _ _
    | err e => exact log_test_result_ok st1 Category.log_metrics (by decide) _ _ _

/-- The dashboard test group never propagates an exception. -/
lemma test_dashboard_ok (env : ValidatorEnv) (st : Results) :
    ∃ st2, test_dashboard env st = Except.ok st2 := by
  unfold test_dashboard
  cases env.listDashboards with
  | err e => exact log_test_result_ok st Category.dashboard (by decide) _ _ _
  | ok dashboards =>
    refine ex_ok_bind (log_test_result_ok st Category.dashboard (by decide) _ _ _)
      (fun st1 => ?_)
    dsimp only
    cases hdd : dashboards.filter (fun d => strContains d.display_name "DressUp AI") with
    | nil => exact ⟨st1, rfl⟩
    | cons d rest =>
      dsimp only
      obtain ⟨dn, mt⟩ := d
      cases mt with
      | none => exact log_test_result_ok st1 Category.dashboard (by decide) _ _ _
      | some tiles =>
        exact ex_ok_bind (log_test_result_ok st1 Category.dashboard (by decide) _ _ _)
          (fun st2 => log_test_result_ok st2 Category.dashboard (by decide) _ _ _)

/-- The initial accumulator satisfies the invariant. -/
lemma balanced_initial : balanced initial_results :=
  ⟨rfl, rfl, rfl, rfl, rfl, rfl⟩

/-- One recording step on a real category: it succeeds, preserves the
invariant, appends exactly one entry to its own category's list and leaves
every other test list unchanged. -/
lemma log_step (st : Results) (cat : Category) (nm : String) (p : Bool) (d : String)
    (hc : cat ≠ Category.overall) :
    ∃ st2, log_test_result st cat nm p d = Except.ok st2 ∧
      (balanced st → balanced st2) ∧
      catTests st2 cat = catTests st cat ++ [⟨nm, p, d⟩] ∧
      ∀ c2, c2 ≠ cat → catTests st2 c2 = catTests st c2 := by
  cases cat with
  | overall => exact absurd rfl hc
  | structured_logging =>
      cases p <;>
        refine ⟨_, rfl, fun hb => ?_, rfl, fun c2 hc2 => ?_⟩ <;>
        first
          | (unfold balanced sumCatPassed sumCatFailed at hb ⊢
             dsimp only [setCat]
             simp only [List.length_append, List.length_cons, List.length_nil]
             omega)
          | (cases c2 <;> first | rfl | exact absurd rfl hc2)
  | log_metrics =>
      cases p <;>
        refine ⟨_, rfl, fun hb => ?_, rfl, fun c2 hc2 => ?_⟩ <;>
        first
          | (unfold balanced sumCatPassed sumCatFailed at hb ⊢
             dsimp only [setCat]
             simp only [List.length_append, List.length_cons, List.length_nil]
             omega)
          | (cases c2 <;> first | rfl | exact absurd rfl hc2)
  | dashboard =>
      cases p <;>
        refine ⟨_, rfl, fun hb => ?_, rfl, fun c2 hc2 => ?_⟩ <;>
        first
          | (unfold balanced sumCatPassed sumCatFailed at hb ⊢
             dsimp only [setCat]
             simp only [List.length_append, List.length_cons, List.length_nil]
             omega)
          | (cases c2 <;> first | rfl | exact absurd rfl hc2)
  | budgets =>
      cases p <;>
        refine ⟨_, rfl, fun hb => ?_, rfl, fun c2 hc2 => ?_⟩ <;>
        first
          | (unfold balanced sumCatPassed sumCatFailed at hb ⊢
             dsimp only [setCat]
             simp only [List.length_append, List.length_cons, List.length_nil]
             omega)
          | (cases c2 <;> first | rfl | exact absurd rfl hc2)

/-- Running a sequence of recordings on real categories succeeds and keeps
the invariant. -/
lemma runCalls_preserves (calls : List TestCall)
    (h : ∀ c ∈ calls, c.category ≠ Category.overall) :
    ∀ st, balanced st → ∃ st2, runCalls calls st = Except.ok st2 ∧ balanced st2 := by
  induction calls with
  | nil => exact fun st hb => ⟨st, rfl, hb⟩
  | cons c cs ih =>
      intro st hb
      obtain ⟨st2, hok, hbal, -, -⟩ :=
        log_step st c.category c.test_name c.passed c.details (h c (by simp))
      obtain ⟨st3, hok3, hb3⟩ := ih (fun x hx => h x (by simp [hx])) st2 (hbal hb)
      exact ⟨st3, by simp [runCalls, hok, bind, Except.bind, hok3], hb3⟩

/-- The 75-percent threshold over the rational success rate coincides with
the integer comparison 3*(passed+failed) ≤ 4*passed. -/
lemma success_rate_threshold (p f : ℕ) (h : 0 < p + f) :
    (75 ≤ ((p : ℚ) / ((p + f : ℕ) : ℚ) * 100)) ↔ 3 * (p + f) ≤ 4 * p := by
  have ht : (0 : ℚ) < ((p + f : ℕ) : ℚ) := by exact_mod_cast h
  rw [div_mul_eq_mul_div, le_div_iff₀ ht]
  rw [show ((75 : ℚ) * ((p + f : ℕ) : ℚ) ≤ (p : ℚ) * 100) ↔ (75 * (p + f) ≤ p * 100) from by
    exact_mod_cast Iff.rfl]
  omega

/-- Status and rate computed by the report's scoring expression from a
pass/fail count pair. -/
lemma status_of_counts (p f : ℕ) :
    (p + f = 0 →
      (if (75 : ℚ) ≤ (if 0 < p + f then (p : ℚ) / ((p + f : ℕ) : ℚ) * 100 else 0)
        then "PASS" else "FAIL") = "FAIL" ∧
      (if 0 < p + f then (p : ℚ) / ((p + f : ℕ) : ℚ) * 100 else 0) = 0) ∧
    (0 < p + f →
      ((if (75 : ℚ) ≤ (if 0 < p + f then (p : ℚ) / ((p + f : ℕ) : ℚ) * 100 else 0)
        then "PASS" else "FAIL") = "PASS" ↔ 3 * (p + f) ≤ 4 * p)) := by
  constructor
  · intro h0
    have hnot : ¬ 0 < p + f := by omega
    simp only [hnot, if_false]
    norm_num
  · intro h0
    rw [if_pos h0]
    by_cases hr : (75 : ℚ) ≤ (p : ℚ) / ((p + f : ℕ) : ℚ) * 100
    · rw [if_pos hr]
      simp [(success_rate_threshold p f h0).mp hr]
    · rw [if_neg hr]
      constructor
      · intro hx
        exact absurd hx (by decide)
      · intro hth
        exact absurd ((success_rate_threshold p f h0).mpr hth) hr

/-- The per-category scoring block of the report. -/
lemma mkCategoryReport_spec (c : CatResults) :
    (c.passed + c.failed = 0 →
      (mkCategoryReport c).status = "FAIL" ∧ (mkCategoryReport c).success_rate = 0) ∧
    (0 < c.passed + c.failed →
      ((mkCategoryReport c).status = "PASS" ↔
        3 * (c.passed + c.failed) ≤ 4 * c.passed)) :=
  status_of_counts c.passed c.failed

/-! ## Lemmas about dashboard reference validation -/

/-- Set insertion keeps the reference list duplicate-free. -/
lemma addRef_nodup (refs : List String) (m : String) (h : refs.Nodup) :
    (addRef refs m).Nodup := by
  unfold addRef
  split
  · exact h
  · rename_i hm
    have hm2 : m ∉ refs := by simpa using hm
    simp [List.nodup_append, h, hm2]

/-- Processing one filter string keeps the reference list duplicate-free. -/
lemma addFilterRef_nodup (r : List String) (f : String) (h : r.Nodup) :
    (addFilterRef r f).Nodup := by
  unfold addFilterRef
  cases extract_metric_name f with
  | none => exact h
  | some m => exact addRef_nodup r m h

/-- Folding filter strings keeps the reference list duplicate-free. -/
lemma foldl_addFilterRef_nodup (fs : List String) :
    ∀ r, r.Nodup → (fs.foldl addFilterRef r).Nodup := by
  induction fs with
  | nil => exact fun r h => h
  | cons f fs ih =>
      exact fun r h => by simpa [List.foldl_cons] using ih _ (addFilterRef_nodup r f h)

/-- Processing one tile keeps the reference list duplicate-free. -/
lemma addTileRefs_nodup (refs : List String) (t : DashTile) (h : refs.Nodup) :
    (addTileRefs refs t).Nodup := by
  unfold addTileRefs
  have h2 := foldl_addFilterRef_nodup (t.xyChartFilters.getD []) refs h
  cases t.scorecardFilter with
  | none => exact h2
  | some f => exact addFilterRef_nodup _ f h2

/-- The collected reference set is duplicate-free. -/
lemma referenced_metrics_nodup (d : DashboardConfig) :
    (referenced_metrics d).Nodup := by
  unfold referenced_metrics
  suffices h : ∀ (ts : List DashTile) (r : List String), r.Nodup →
      (ts.foldl addTileRefs r).Nodup from h d.tiles [] List.nodup_nil
  intro ts
  induction ts with
  | nil => exact fun r h => h
  | cons t ts ih =>
      exact fun r h => by simpa [List.foldl_cons] using ih _ (addTileRefs_nodup r t h)

/-- Appending-if-undefined over a fold is one appended item per filtered
element. -/
lemma issues_fold (q : String → Bool) (g : String → String) (ms : List String) :
    ∀ acc, ms.foldl (fun issues m => if q m then issues else issues ++ [g m]) acc
      = acc ++ (ms.filter (fun m => ! q m)).map g := by
  induction ms with
  | nil => intro acc; simp
  | cons m ms ih =>
      intro acc
      cases hm : q m <;>
        simp [List.foldl_cons, List.filter_cons, hm, ih, List.append_assoc]

/-- `validate_metrics_references` returns one issue per undefined entry of
the reference set, in order. -/
lemma validate_eq (d : DashboardConfig) (c : MetricsCatalog) :
    validate_metrics_references d c =
      ((referenced_metrics d).filter
        (fun m => ! (defined_metrics c).contains m)).map issueText := by
  unfold validate_metrics_references
  simpa using issues_fold ((defined_metrics c).contains) issueText (referenced_metrics d) []

/-- Distinct metric names give distinct issue messages. -/
lemma issueText_injective : Function.Injective issueText := by
  intro a b h
  have hd : (issueText a).data = (issueText b).data := congrArg String.data h
  unfold issueText at hd
  rw [String.data_append, String.data_append] at hd
  exact String.ext (List.append_cancel_left hd)

/-! ## Claim theorems -/

/-- C1: every completed report with overall status PASS exits 0 and any
other report exits 1; a fatal error exits 1; no other exit value exists;
over full runs the exit is 0 exactly when `run_validation` returned a PASS
report; and for a report computed by `generate_validation_report` from any
accumulator, the exit is 0 exactly when the overall counters meet the
75-percent threshold (so per-test failures influence the exit only through
that threshold). -/
theorem exit_status_reflects_overall_status (env : ValidatorEnv) (pid : String)
    (st : Results) :
    (∀ r : Report, r.overall_status = "PASS" → exit_code (RunOutcome.report r) = 0) ∧
    (∀ r : Report, r.overall_status ≠ "PASS" → exit_code (RunOutcome.report r) = 1) ∧
    (∀ e : PyErr, exit_code (RunOutcome.fatal e) = 1) ∧
    (∀ o : RunOutcome, exit_code o = 0 ∨ exit_code o = 1) ∧
    (exit_code (main_outcome env) = 0 ↔
      ∃ r, run_validation env = Except.ok r ∧ r.overall_status = "PASS") ∧
    (exit_code (RunOutcome.report (generate_validation_report pid st)) = 0 ↔
      (0 < st.overall.passed + st.overall.failed ∧
       3 * (st.overall.passed + st.overall.failed) ≤ 4 * st.overall.passed)) := by
  refine ⟨?_, ?_, ?_, ?_, ?_, ?_⟩
  · intro r h
    simp [exit_code, h]
  · intro r h
    simp [exit_code, h]
  · intro e
    rfl
  · intro o
    cases o with
    | report r =>
        by_cases h : r.overall_status = "PASS"
        · exact Or.inl (by simp [exit_code, h])
        · exact Or.inr (by simp [exit_code, h])
    | fatal e => exact Or.inr rfl
  · cases hrun : run_validation env with
    | ok r =>
        by_cases hp : r.overall_status = "PASS" <;>
          simp [main_outcome, exit_code, hrun, hp]
    | error e =>
        simp [main_outcome, exit_code, hrun]
  · by_cases h0 : 0 < st.overall.passed + st.overall.failed
    · have hiff := (status_of_counts st.overall.passed st.overall.failed).2 h0
      by_cases hs : (generate_validation_report pid st).overall_status = "PASS"
      · have he : exit_code (RunOutcome.report (generate_validation_report pid st)) = 0 := by
          simp [exit_code, hs]
        rw [he]
        exact ⟨fun _ => ⟨h0, hiff.mp hs⟩, fun _ => rfl⟩
      · have he : exit_code (RunOutcome.report (generate_validation_report pid st)) = 1 := by
          simp [exit_code, hs]
        rw [he]
        constructor
        · intro h10
          exact absurd h10 (by decide)
        · rintro ⟨-, hth⟩
          exact absurd (hiff.mpr hth) hs
    · have h1 := (status_of_counts st.overall.passed st.overall.failed).1 (by omega)
      have hs : (generate_validation_report pid st).overall_status = "FAIL" := h1.1
      have he : exit_code (RunOutcome.report (generate_validation_report pid st)) = 1 := by
        simp [exit_code, hs]
      rw [he]
      constructor
      · intro h10
        exact absurd h10 (by decide)
      · rintro ⟨hpos, -⟩
        exact absurd hpos h0

/-- Witness for C1: a 75-percent accumulator's report exits 0, a 25-percent
accumulator's report exits 1, and a full run (which always ends in the
completeness-step error, see C2) exits 1 through the fatal branch. -/
theorem exit_status_reflects_overall_status_witness :
    exit_code (RunOutcome.report (generate_validation_report "demo-project" passStateC1)) = 0 ∧
    exit_code (RunOutcome.report (generate_validation_report "demo-project" failStateC1)) = 1 ∧
    exit_code (main_outcome envC1) = 1 := by
  have h := exit_status_reflects_overall_status envC1 "demo-project" passStateC1
  have h2 := exit_status_reflects_overall_status envC1 "demo-project" failStateC1
  refine ⟨?_, ?_, ?_⟩
  · exact h.2.2.2.2.2.mpr ⟨by decide, by decide⟩
  · refine h2.2.1 (generate_validation_report "demo-project" failStateC1) ?_
    intro hp
    exact absurd (((status_of_counts 1 3).2 (by omega)).mp hp) (by omega)
  · rw [show main_outcome envC1 = RunOutcome.fatal (PyErr.keyError "tests") from rfl]
    exact h.2.2.1 (PyErr.keyError "tests")

/-- C2: the completeness condition computed at the claim's example state
(three categories with passed=1/failed=0, one with passed=0/failed=2) is
true, but recording the "Monitoring pipeline completeness" test raises
`KeyError: 'tests'` at every state, so no completeness test is ever
recorded and no run proceeds to the report. -/
theorem completeness_recording_always_raises :
    3 ≤ (working_components exampleStateC2).length ∧
    (∀ st : Results, test_end_to_end_flow st = Except.error (PyErr.keyError "tests")) ∧
    run_validation envC1 = Except.error (PyErr.keyError "tests") :=
  ⟨by decide, test_end_to_end_flow_raises, rfl⟩

/-- C3: a catalog entry whose create call fails with a non-conflict error,
and one whose conflict-fallback update fails, are both counted in
`successful_metrics` (not in `failed_metrics`), because `create_log_metric`
swallows the API exception and `main` counts every normal return as a
success. -/
theorem api_failures_counted_as_successful :
    (create_metrics_main envC3 catalogC3).events =
      [MetricEvent.createFailed "error_rate" "403 permission denied"] ∧
    (create_metrics_main envC3 catalogC3).successful_metrics = 1 ∧
    (create_metrics_main envC3 catalogC3).failed_metrics = 0 ∧
    (create_metrics_main envC3b catalogC3).events =
      [MetricEvent.alreadyExists "error_rate",
       MetricEvent.updateFailed "error_rate" "500 backend error"] ∧
    (create_metrics_main envC3b catalogC3).successful_metrics = 1 ∧
    (create_metrics_main envC3b catalogC3).failed_metrics = 0 :=
  ⟨rfl, rfl, rfl, rfl, rfl, rfl⟩

/-- C4: an entry whose create fails with an "already exists" error (case
insensitively) gets exactly one update call and no failure count; in the
two-entry scenario the run reports one create, one update, zero failures
and lists both metric names. -/
theorem already_exists_redirects_to_update (env : MetricsEnv) (a b : MetricEntry)
    (msgB : String)
    (hA : env.createResult a.name = ApiOutcome.success)
    (hB : env.createResult b.name = ApiOutcome.failure msgB)
    (hConflict : strContains (strLower msgB) "already exists" = true)
    (hUpd : env.updateResult b.name = ApiOutcome.success) :
    (create_log_metric env b).1 =
      [ApiCall.createMetric b.name, ApiCall.updateMetric b.name] ∧
    (create_metrics_main env [a, b]).calls =
      [ApiCall.createMetric a.name, ApiCall.createMetric b.name,
       ApiCall.updateMetric b.name] ∧
    (create_metrics_main env [a, b]).events =
      [MetricEvent.created a.name, MetricEvent.alreadyExists b.name,
       MetricEvent.updated b.name] ∧
    (create_metrics_main env [a, b]).failed_metrics = 0 ∧
    (create_metrics_main env [a, b]).successful_metrics = 2 ∧
    (create_metrics_main env [a, b]).listing =
      [(a.name, a.description), (b.name, b.description)] := by
  have ha : create_log_metric env a =
      ([ApiCall.createMetric a.name], [MetricEvent.created a.name]) := by
    unfold create_log_metric
    rw [hA]
  have hb : create_log_metric env b =
      ([ApiCall.createMetric b.name, ApiCall.updateMetric b.name],
       [MetricEvent.alreadyExists b.name, MetricEvent.updated b.name]) := by
    unfold create_log_metric
    rw [hB]
    simp [hConflict, hUpd]
  refine ⟨by rw [hb], ?_, ?_, ?_, ?_, ?_⟩ <;>
    simp [create_metrics_main, ha, hb]

/-- Witness for C4: the two-entry scenario at a concrete environment. -/
theorem already_exists_redirects_to_update_witness :
    (create_metrics_main envC4 [entryA, entryB]).events =
      [MetricEvent.created "session_creation_rate", MetricEvent.alreadyExists "error_rate",
       MetricEvent.updated "error_rate"] ∧
    (create_metrics_main envC4 [entryA, entryB]).failed_metrics = 0 ∧
    (create_metrics_main envC4 [entryA, entryB]).listing =
      [("session_creation_rate", "Sessions created"), ("error_rate", "Rate of errors")] := by
  have h := already_exists_redirects_to_update envC4 entryA entryB
    "Log metric already exists" rfl rfl (by decide) rfl
  exact ⟨h.2.2.1, h.2.2.2.1, h.2.2.2.2.2⟩

/-- C5: a category (or the overall total) with zero recorded tests gets
rate 0 and status FAIL, never a division error; with a positive total, the
status is PASS exactly when passed/(passed+failed) is at least 75 percent
(as integers, 3*(passed+failed) ≤ 4*passed). -/
theorem report_threshold_scoring (pid : String) (st : Results) :
    (∀ pr ∈ (generate_validation_report pid st).categories,
      (pr.2.passed + pr.2.failed = 0 →
        pr.2.status = "FAIL" ∧ pr.2.success_rate = 0) ∧
      (0 < pr.2.passed + pr.2.failed →
        (pr.2.status = "PASS" ↔ 3 * (pr.2.passed + pr.2.failed) ≤ 4 * pr.2.passed))) ∧
    ((generate_validation_report pid st).total_tests = 0 →
      (generate_validation_report pid st).overall_status = "FAIL" ∧
      (generate_validation_report pid st).success_rate = 0) ∧
    (0 < (generate_validation_report pid st).total_tests →
      ((generate_validation_report pid st).overall_status = "PASS" ↔
        3 * (generate_validation_report pid st).total_tests ≤
          4 * (generate_validation_report pid st).passed_tests)) := by
  refine ⟨?_, ?_, ?_⟩
  · intro pr hpr
    have hmem : pr = ("structured_logging", mkCategoryReport st.structured_logging) ∨
        pr = ("log_metrics", mkCategoryReport st.log_metrics) ∨
        pr = ("dashboard", mkCategoryReport st.dashboard) ∨
        pr = ("budgets", mkCategoryReport st.budgets) := by
      simpa [generate_validation_report] using hpr
    rcases hmem with h | h | h | h <;> subst h <;> exact mkCategoryReport_spec _
  · exact (status_of_counts st.overall.passed st.overall.failed).1
  · exact (status_of_counts st.overall.passed st.overall.failed).2

/-- Witness for C5: the empty accumulator scores 0 tests as FAIL with
rate 0. -/
theorem report_threshold_scoring_witness :
    (generate_validation_report "demo-project" initial_results).overall_status = "FAIL" ∧
    (generate_validation_report "demo-project" initial_results).success_rate = 0 :=
  (report_threshold_scoring "demo-project" initial_results).2.1 rfl

/-- C6: when the metric-descriptor listing raises, the log-metrics category
records its failed test but the function then evaluates the never-assigned
local `found_metrics` and raises `NameError`, aborting the whole run (exit
1): the dashboard, budget and completeness tests never run. -/
theorem descriptor_listing_error_aborts_run :
    (∀ st : Results, test_log_metrics envC6 st =
      Except.error (PyErr.nameError "found_metrics")) ∧
    run_validation envC6 = Except.error (PyErr.nameError "found_metrics") ∧
    exit_code (main_outcome envC6) = 1 :=
  ⟨fun _ => rfl, rfl, rfl⟩

/-- C7: every budget built by `create_budget` carries exactly the five
threshold rules 0.5, 0.75, 0.9, 1.0, 1.1 (current-spend basis), whatever
the amount, name, service list or notification channels. -/
theorem budget_fixed_threshold_schedule (billing_account project_id : String)
    (budget_amount : Int) (display_name : String)
    (services notification_channels : Option (List String)) :
    (create_budget billing_account project_id budget_amount display_name services
        notification_channels).threshold_rules =
      [⟨0.5, Basis.CURRENT_SPEND⟩, ⟨0.75, Basis.CURRENT_SPEND⟩,
       ⟨0.9, Basis.CURRENT_SPEND⟩, ⟨1.0, Basis.CURRENT_SPEND⟩,
       ⟨1.1, Basis.CURRENT_SPEND⟩] ∧
    (create_budget billing_account project_id budget_amount display_name services
        notification_channels).threshold_rules.length = 5 ∧
    ((create_budget billing_account project_id budget_amount display_name services
        notification_channels).threshold_rules.map ThresholdRule.threshold_percent) =
      [1/2, 3/4, 9/10, 1, 11/10] := by
  refine ⟨rfl, rfl, ?_⟩
  have h1 : (create_budget billing_account project_id budget_amount display_name services
      notification_channels).threshold_rules =
      [⟨0.5, Basis.CURRENT_SPEND⟩, ⟨0.75, Basis.CURRENT_SPEND⟩,
       ⟨0.9, Basis.CURRENT_SPEND⟩, ⟨1.0, Basis.CURRENT_SPEND⟩,
       ⟨1.1, Basis.CURRENT_SPEND⟩] := rfl
  rw [h1]
  simp only [List.map_cons, List.map_nil]
  norm_num

/-- C8: reference validation returns no issue exactly when every referenced
metric name is defined in the catalog, and otherwise exactly one issue per
distinct referenced-but-undefined name (duplicated references collapse in
the reference set), each of the fixed message shape. -/
theorem dashboard_reference_validation (d : DashboardConfig) (c : MetricsCatalog) :
    (validate_metrics_references d c = [] ↔
      ∀ m ∈ referenced_metrics d, m ∈ defined_metrics c) ∧
    (∀ m : String, List.count (issueText m) (validate_metrics_references d c) =
      if m ∈ referenced_metrics d ∧ m ∉ defined_metrics c then 1 else 0) ∧
    (∀ i ∈ validate_metrics_references d c,
      ∃ m, i = issueText m ∧ m ∈ referenced_metrics d ∧ m ∉ defined_metrics c) := by
  have hval := validate_eq d c
  have hnd := referenced_metrics_nodup d
  refine ⟨?_, ?_, ?_⟩
  · rw [hval]
    constructor
    · intro h m hm
      rw [List.map_eq_nil, List.filter_eq_nil] at h
      have h2 := h m hm
      simpa using h2
    · intro h
      rw [List.map_eq_nil, List.filter_eq_nil]
      intro m hm
      simpa using h m hm
  · intro m
    rw [hval]
    by_cases hm : m ∈ referenced_metrics d ∧ m ∉ defined_metrics c
    · rw [if_pos hm]
      refine List.count_eq_one_of_mem ((hnd.filter _).map issueText_injective) ?_
      exact (List.mem_map_of_injective issueText_injective).mpr
        (List.mem_filter.mpr ⟨hm.1, by simpa using hm.2⟩)
    · rw [if_neg hm]
      refine List.count_eq_zero_of_not_mem ?_
      intro hmem
      obtain ⟨x, hx, hxe⟩ := List.mem_map.mp hmem
      have hxm : x = m := issueText_injective hxe
      subst hxm
      have h2 := List.mem_filter.mp hx
      exact hm ⟨h2.1, by simpa using h2.2⟩
  · intro i hi
    rw [hval] at hi
    obtain ⟨m, hm, hme⟩ := List.mem_map.mp hi
    have h2 := List.mem_filter.mp hm
    exact ⟨m, hme.symm, h2.1, by simpa using h2.2⟩

/-- Witness for C8: a dashboard referencing the undefined `ghost_metric`
from two widgets yields exactly one issue, and the issue list is not
empty. -/
theorem dashboard_reference_validation_witness :
    List.count (issueText "ghost_metric") (validate_metrics_references dashW catalogW) = 1 ∧
    validate_metrics_references dashW catalogW ≠ [] := by
  have h := dashboard_reference_validation dashW catalogW
  constructor
  · rw [h.2.1 "ghost_metric", if_pos (by decide)]
  · intro he
    exact absurd (h.1.mp he "ghost_metric" (by decide)) (by decide)

/-- C9: with billing disabled, the budget category records exactly one
failed "Billing enabled" test, issues zero list-budget calls, runs no other
budget test and returns normally; the run then still reaches the
completeness step (whose own recording error is what ends every run). -/
theorem billing_disabled_skips_budget_listing (env : ValidatorEnv) (info : BillingInfo)
    (h1 : env.billingInfo = ApiResult.ok info) (h2 : info.billing_enabled = false) :
    (∀ st, test_budget_alerts env st =
      Except.ok
        ({ st with
            budgets :=
              ⟨st.budgets.passed, st.budgets.failed + 1,
               st.budgets.tests ++
                 [⟨"Billing enabled", false, "Billing is not enabled for this project"⟩]⟩
            overall := ⟨st.overall.passed, st.overall.failed + 1⟩ }, 0)) ∧
    (∀ ds, env.listDescriptors = ApiResult.ok ds →
      run_validation env = Except.error (PyErr.keyError "tests")) := by
  have hA : ∀ st, test_budget_alerts env st =
      Except.ok
        ({ st with
            budgets :=
              ⟨st.budgets.passed, st.budgets.failed + 1,
               st.budgets.tests ++
                 [⟨"Billing enabled", false, "Billing is not enabled for this project"⟩]⟩
            overall := ⟨st.overall.passed, st.overall.failed + 1⟩ }, 0) := by
    intro st
    unfold test_budget_alerts
    rw [h1]
    dsimp only
    rw [h2]
    rfl
  refine ⟨hA, ?_⟩
  intro ds hds
  obtain ⟨st1, hst1⟩ := test_structured_logging_ok env initial_results
  obtain ⟨st2, hst2⟩ := test_log_metrics_ok env st1 ds hds
  obtain ⟨st3, hst3⟩ := test_dashboard_ok env st2
  have hb := hA st3
  simp [run_validation, bind, Except.bind, hst1, hst2, hst3, hb,
    test_end_to_end_flow_raises]

/-- Witness for C9, at a billing-disabled environment with otherwise
benign responses. -/
theorem billing_disabled_skips_budget_listing_witness :
    test_budget_alerts envC9 initial_results =
      Except.ok
        ({ initial_results with
            budgets := ⟨0, 1, [⟨"Billing enabled", false,
              "Billing is not enabled for this project"⟩]⟩
            overall := ⟨0, 1⟩ }, 0) ∧
    run_validation envC9 = Except.error (PyErr.keyError "tests") := by
  have h := billing_disabled_skips_budget_listing envC9
    ⟨false, "billingAccounts/000000"⟩ rfl rfl
  exact ⟨h.1 initial_results, h.2 [] rfl⟩

/-- C10: from the initial accumulator, any sequence of recordings on the
four real categories keeps overall counters equal to the category sums and
each category's counters equal to its test-list length; each recording
appends exactly one entry to exactly one category's list. -/
theorem accumulator_invariant :
    (∀ calls : List TestCall, (∀ c ∈ calls, c.category ≠ Category.overall) →
      ∃ st, runCalls calls initial_results = Except.ok st ∧ balanced st) ∧
    (∀ (st : Results) (cat : Category) (nm : String) (p : Bool) (d : String),
      cat ≠ Category.overall →
      ∃ st2, log_test_result st cat nm p d = Except.ok st2 ∧
        catTests st2 cat = catTests st cat ++ [⟨nm, p, d⟩] ∧
        ∀ c2, c2 ≠ cat → catTests st2 c2 = catTests st c2) := by
  constructor
  · intro calls h
    exact runCalls_preserves calls h initial_results balanced_initial
  · intro st cat nm p d hc
    obtain ⟨st2, hok, -, h3, h4⟩ := log_step st cat nm p d hc
    exact ⟨st2, hok, h3, h4⟩

/-- Witness for C10: a concrete three-call sequence. -/
theorem accumulator_invariant_witness :
    ∃ st, runCalls callsC10 initial_results = Except.ok st ∧ balanced st :=
  accumulator_invariant.1 callsC10 (by decide)

end DressUp
